import Mathlib

/-!
Shallow embedding of `src/Watchdog Model/create_watchdog_model.py`, a Blender
script that builds a dog-head mesh, adds MediaPipe/ARKit blendshape keys and a
one-bone armature, and recenters the mesh origin.

The script is a straight-line sequence of calls into Blender's `bpy` API, so the
embedding models the Blender scene graph (objects with mesh or armature data,
shape-key blocks, bones, selection and active-object state) and gives each
`bpy.ops` call used by the script a state-transformer semantics on that scene.
Host geometry the script does not compute itself (the UV-sphere vertex
positions, the result of one `subdivide` cut) is abstracted as a `Host`
parameter, so every theorem is quantified over what the host returns.
Python exceptions raised by host-API lookups (`key_blocks["Basis"]`,
`edit_bones["Bone"]`) are modelled with `Option`: `none` is a propagated host
exception.  Editor mode changes (`mode_set`) carry no observable state that the
script's claims depend on, so they are identity on the modelled scene.
-/

namespace Watchdog

/-- A 3D coordinate. Host floats are modelled as rationals; every numeric
literal the script uses (1.05, 1.2, 0.95, 0.2) is exactly representable. -/
structure Vec3 where
  x : Rat
  y : Rat
  z : Rat
deriving DecidableEq, Repr

def Vec3.zero : Vec3 := ⟨0, 0, 0⟩

/-- Componentwise product, used to apply an object scale to a vertex. -/
def Vec3.mul (a b : Vec3) : Vec3 := ⟨a.x * b.x, a.y * b.y, a.z * b.z⟩

def Vec3.add (a b : Vec3) : Vec3 := ⟨a.x + b.x, a.y + b.y, a.z + b.z⟩

def Vec3.sub (a b : Vec3) : Vec3 := ⟨a.x - b.x, a.y - b.y, a.z - b.z⟩

/-- One shape-key block (`mesh.shape_keys.key_blocks[...]`): a name plus one
coordinate per mesh vertex. -/
structure ShapeKey where
  name : String
  data : List Vec3
deriving DecidableEq, Repr

/-- Mesh datablock: vertex positions plus the optional shape-key collection
(`mesh.shape_keys` is `None` in Blender until a first key is added). -/
structure MeshData where
  vertices : List Vec3
  shape_keys : Option (List ShapeKey)
deriving DecidableEq, Repr

/-- An (edit) bone of an armature: name, head and tail positions in armature
space. -/
structure Bone where
  name : String
  head : Vec3
  tail : Vec3
deriving DecidableEq, Repr

/-- Armature datablock: its bones. -/
structure ArmatureData where
  bones : List Bone
deriving DecidableEq, Repr

/-- The datablock attached to a scene object. `other` covers every remaining
Blender object type (camera, light, ...), identified by its type string. -/
inductive ObjectData where
  | mesh (m : MeshData)
  | armature (a : ArmatureData)
  | other (kind : String)
deriving DecidableEq, Repr

/-- Blender's `object.type` string for each datablock kind. -/
def ObjectData.typeName : ObjectData → String
  | .mesh _ => "MESH"
  | .armature _ => "ARMATURE"
  | .other k => k

/-- A scene object: name, datablock, transform fields the script touches
(location, scale), parent (index into the scene's object list) and selection
flag. -/
structure BObject where
  name : String
  data : ObjectData
  location : Vec3
  scale : Vec3
  parent : Option Nat
  selected : Bool
deriving DecidableEq, Repr

/-- Model of `mesh_object.type`, as tested at line 94 of the script. -/
def BObject.type (o : BObject) : String := o.data.typeName

/-- The Blender scene: object list plus `context.view_layer.objects.active`
(modelled as an index into the object list). Python object references held by
the script's variables are modelled as such indices. -/
structure Scene where
  objects : List BObject
  active : Option Nat
deriving DecidableEq, Repr

/-- Host-provided geometry the script never computes itself: the vertex list of
`primitive_uv_sphere_add(segments=32, ring_count=20, radius=1.0)` and the
effect of one `mesh.subdivide(number_cuts=1)` on a vertex list. -/
structure Host where
  sphereVerts : List Vec3
  subdivideOnce : List Vec3 → List Vec3

/-- Update the object at index `i` (no-op when out of range; the script only
uses in-range references). -/
def setObj (s : Scene) (i : Nat) (f : BObject → BObject) : Scene :=
  match s.objects[i]? with
  | none => s
  | some o => { s with objects := s.objects.set i (f o) }

/-- Model of `bpy.ops.object.select_all(action="SELECT")`. -/
def select_all_select (s : Scene) : Scene :=
  { s with objects := s.objects.map fun o => { o with selected := true } }

/-- Model of `bpy.ops.object.select_all(action="DESELECT")`. -/
def select_all_deselect (s : Scene) : Scene :=
  { s with objects := s.objects.map fun o => { o with selected := false } }

/-- Model of `bpy.ops.object.delete(use_global=False)`: remove the selected objects. -/
def delete_selected (s : Scene) : Scene :=
  { objects := s.objects.filter fun o => !o.selected, active := none }

/-- Model of `obj.select_set(v)`. -/
def select_set (s : Scene) (i : Nat) (v : Bool) : Scene :=
  setObj s i fun o => { o with selected := v }

/-- Model of `bpy.context.view_layer.objects.active = obj`. -/
def set_active (s : Scene) (i : Nat) : Scene := { s with active := some i }

/-- Model of `bpy.ops.mesh.primitive_uv_sphere_add(...)`: append a new mesh object named
"Sphere" holding the host's sphere vertices; the new object becomes selected
and active, all others are deselected. -/
def primitive_uv_sphere_add (h : Host) (s : Scene) : Scene :=
  let sphere : BObject :=
    { name := "Sphere"
      data := .mesh { vertices := h.sphereVerts, shape_keys := none }
      location := Vec3.zero
      scale := ⟨1, 1, 1⟩
      parent := none
      selected := true }
  { objects := (s.objects.map fun o => { o with selected := false }) ++ [sphere]
    active := some s.objects.length }

/-- Bake an object's scale into its data, as `transform_apply(scale=True)` does
for a mesh: multiply every vertex (and every shape-key coordinate) by the scale
componentwise, then reset the scale to (1, 1, 1). -/
def bakeScale (o : BObject) : BObject :=
  match o.data with
  | .mesh m =>
    { o with
      data := .mesh
        { vertices := m.vertices.map fun v => Vec3.mul v o.scale
          shape_keys := m.shape_keys.map fun ks =>
            ks.map fun k => { k with data := k.data.map fun v => Vec3.mul v o.scale } }
      scale := ⟨1, 1, 1⟩ }
  | _ => { o with scale := ⟨1, 1, 1⟩ }

/-- Model of `bpy.ops.object.transform_apply(scale=True)`: bake the scale of every
selected object. -/
def transform_apply_scale (s : Scene) : Scene :=
  { s with objects := s.objects.map fun o => if o.selected then bakeScale o else o }

/-- Model of `bpy.ops.mesh.subdivide(number_cuts=1)` in edit mode: replace the active
mesh object's vertices by the host's one-cut subdivision of them. The script
subdivides before any shape key exists, so key data is untouched. -/
def subdivide_active (h : Host) (s : Scene) : Scene :=
  match s.active with
  | none => s
  | some i =>
    setObj s i fun o =>
      match o.data with
      | .mesh m => { o with data := .mesh { m with vertices := h.subdivideOnce m.vertices } }
      | _ => o

/-- Model of `bpy.ops.object.armature_add(enter_editmode=False, align="WORLD",
location=(0, 0, 0))`: append an armature object named "Armature" whose single
default bone is named "Bone" (its default tail is overwritten by the script);
the new object becomes selected and active, all others are deselected. -/
def armature_add (s : Scene) : Scene :=
  let arm : BObject :=
    { name := "Armature"
      data := .armature { bones := [{ name := "Bone", head := Vec3.zero, tail := ⟨0, 0, 1⟩ }] }
      location := Vec3.zero
      scale := ⟨1, 1, 1⟩
      parent := none
      selected := true }
  { objects := (s.objects.map fun o => { o with selected := false }) ++ [arm]
    active := some s.objects.length }

/-- Lines 74-77 of the script: look up `edit_bones["Bone"]` on object `i`,
rename it to "root" and set its head to (0,0,0) and tail to (0,0,0.2).
`none` models the KeyError Python raises when no bone named "Bone" exists. -/
def set_root_bone (s : Scene) (i : Nat) : Option Scene :=
  match s.objects[i]? with
  | none => none
  | some o =>
    match o.data with
    | .armature a =>
      if a.bones.any fun b => b.name = "Bone" then
        some (setObj s i fun o' =>
          match o'.data with
          | .armature a' =>
            { o' with data := .armature { bones := a'.bones.map fun b =>
                if b.name = "Bone" then
                  { b with name := "root", head := Vec3.zero, tail := ⟨0, 0, 0.2⟩ }
                else b } }
          | _ => o')
      else none
    | _ => none

/-- Model of `bpy.ops.object.parent_set(type="OBJECT")`: every selected object other
than the active one gets the active object as its parent. -/
def parent_set_object (s : Scene) : Scene :=
  match s.active with
  | none => s
  | some i =>
    { s with objects := s.objects.enum.map fun p =>
        if p.2.selected ∧ p.1 ≠ i then { p.2 with parent := some i } else p.2 }

/-- Componentwise minimum. -/
def vmin (a b : Vec3) : Vec3 := ⟨min a.x b.x, min a.y b.y, min a.z b.z⟩

/-- Componentwise maximum. -/
def vmax (a b : Vec3) : Vec3 := ⟨max a.x b.x, max a.y b.y, max a.z b.z⟩

/-- Center of the axis-aligned bounding box of a vertex list (what Blender's
`origin_set(center="BOUNDS")` recenters to); the zero vector for an empty
mesh, for which Blender leaves the origin in place. -/
def boundsCenter (vs : List Vec3) : Vec3 :=
  match vs with
  | [] => Vec3.zero
  | v :: rest =>
    let lo := rest.foldl vmin v
    let hi := rest.foldl vmax v
    ⟨(lo.x + hi.x) / 2, (lo.y + hi.y) / 2, (lo.z + hi.z) / 2⟩

/-- Recenter one mesh object's origin to its bounding-box center: shift every
vertex and every shape-key coordinate by the opposite of the center and move
the object's location by the center, leaving world positions unchanged.
Non-mesh objects are untouched (the script only applies this to the head). -/
def recenterObj (o : BObject) : BObject :=
  match o.data with
  | .mesh m =>
    let c := boundsCenter m.vertices
    { o with
      data := .mesh
        { vertices := m.vertices.map fun v => v.sub c
          shape_keys := m.shape_keys.map fun ks =>
            ks.map fun k => { k with data := k.data.map fun v => v.sub c } }
      location := o.location.add c }
  | _ => o

/-- Model of `bpy.ops.object.origin_set(type="ORIGIN_GEOMETRY", center="BOUNDS")`:
recenter every selected object. -/
def origin_set_bounds (s : Scene) : Scene :=
  { s with objects := s.objects.map fun o => if o.selected then recenterObj o else o }

/-- Lines 15-30 of the script: the 51 MediaPipe Face Landmarker blendshape
names the script lists (its comment notes `_neutral`, index 0 of the MediaPipe
convention, is omitted because the Basis key plays that role). -/
def BLENDSHAPE_NAMES : List String := [
  "browDownLeft", "browDownRight", "browInnerUp", "browOuterUpLeft", "browOuterUpRight",
  "cheekPuff", "cheekSquintLeft", "cheekSquintRight",
  "eyeBlinkLeft", "eyeBlinkRight",
  "eyeLookDownLeft", "eyeLookDownRight", "eyeLookInLeft", "eyeLookInRight",
  "eyeLookOutLeft", "eyeLookOutRight", "eyeLookUpLeft", "eyeLookUpRight",
  "eyeSquintLeft", "eyeSquintRight", "eyeWideLeft", "eyeWideRight",
  "jawForward", "jawLeft", "jawOpen", "jawRight",
  "mouthClose", "mouthDimpleLeft", "mouthDimpleRight",
  "mouthFrownLeft", "mouthFrownRight", "mouthFunnel", "mouthLeft",
  "mouthLowerDownLeft", "mouthLowerDownRight", "mouthPressLeft", "mouthPressRight",
  "mouthPucker", "mouthRight", "mouthRollLower", "mouthRollUpper",
  "mouthShrugLower", "mouthShrugUpper", "mouthSmileLeft", "mouthSmileRight",
  "mouthStretchLeft", "mouthStretchRight", "mouthUpperUpLeft", "mouthUpperUpRight",
  "noseSneerLeft", "noseSneerRight"]

/-- Line 34 of the script: the extra custom shape key for tongue tracking. -/
def EXTRA_BLENDSHAPE_NAMES : List String := ["tongueOut"]

/-- Model of `clear_scene()` (lines 37-40): select everything, delete it. -/
def clear_scene (s : Scene) : Scene :=
  delete_selected (select_all_select s)

/-- Model of `create_watchdog_head_mesh()` (lines 43-59): add a UV sphere, rename it
"WatchdogHead", set its scale to (1.05, 1.2, 0.95), bake the scale with
`transform_apply(scale=True)`, then subdivide once in edit mode. Returns the
scene and the head object's index (the Python `head` reference). -/
def create_watchdog_head_mesh (h : Host) (s : Scene) : Scene × Nat :=
  let s1 := primitive_uv_sphere_add h s
  let i := s.objects.length
  let s2 := setObj s1 i fun o => { o with name := "WatchdogHead" }
  let s3 := setObj s2 i fun o => { o with scale := ⟨1.05, 1.2, 0.95⟩ }
  let s4 := transform_apply_scale s3
  let s5 := subdivide_active h s4
  (s5, i)

/-- Model of `add_root_bone(head_object)` (lines 62-86): add an armature, rename it
"Armature", rename its bone to "root" with head (0,0,0) and tail (0,0,0.2),
select the head and the armature with the armature active, parent the selected
objects to the armature, then deselect everything. Returns the scene and the
armature index. -/
def add_root_bone (s : Scene) (head_index : Nat) : Option (Scene × Nat) :=
  let s1 := armature_add s
  let ai := s.objects.length
  let s2 := setObj s1 ai fun o => { o with name := "Armature" }
  match set_root_bone s2 ai with
  | none => none
  | some s3 =>
    let s4 := select_set s3 head_index true
    let s5 := select_set s4 ai true
    let s6 := set_active s5 ai
    let s7 := parent_set_object s6
    let s8 := select_all_deselect s7
    some (s8, ai)

/-- Lines 101-102: if the mesh has no shape keys yet, `shape_key_add(from_mix
=False)` creates the Basis key holding the current vertex positions. -/
def shape_key_add_basis (m : MeshData) : MeshData :=
  match m.shape_keys with
  | none => { m with shape_keys := some [{ name := "Basis", data := m.vertices }] }
  | some _ => m

/-- The copy loop at lines 110-111: `for i in range(n): sk.data[i].co =
basis.data[i].co.copy()`, run on a key whose data starts as `skData`. Every
call site has `n` equal to both lists' lengths (a Blender API invariant), where
Python indexing is in bounds; `List.set` ignoring an out-of-range index and the
`Vec3.zero` default are unreachable there. -/
def copy_basis_loop (n : Nat) (basisData skData : List Vec3) : List Vec3 :=
  (List.range n).foldl (fun acc i => acc.set i (basisData.getD i Vec3.zero)) skData

/-- The loop at lines 105-111: fold over the blendshape names; a name already
present among the key blocks is skipped, otherwise `key_blocks.new(name,
from_mix=False)` appends a key initialized to the current vertex positions and
the inner loop overwrites its data with the Basis data. -/
def add_keys_fold (n : Nat) (verts basisData : List Vec3)
    (blocks : List ShapeKey) (names : List String) : List ShapeKey :=
  names.foldl (fun ks name =>
    if ks.any fun k => k.name = name then ks
    else ks ++ [{ name := name, data := copy_basis_loop n basisData verts }]) blocks

/-- Model of `add_blendshape_keys(mesh_object)` (lines 89-111). A non-mesh object makes
it return with the scene untouched (the type check precedes every mutation).
Otherwise it deselects all, selects and activates the mesh object, ensures the
Basis key exists, looks up `key_blocks["Basis"]` (`none` models the KeyError
when a pre-existing shape-key collection has no "Basis") and runs the
name-adding loop. -/
def add_blendshape_keys (s : Scene) (i : Nat) : Option Scene :=
  match s.objects[i]? with
  | none => none
  | some obj =>
    match obj.data with
    | .mesh mesh0 =>
      let s1 := set_active (select_set (select_all_deselect s) i true) i
      let mesh1 := shape_key_add_basis mesh0
      match (mesh1.shape_keys.getD []).find? fun k => k.name = "Basis" with
      | none => none
      | some basis =>
        let blocks := add_keys_fold mesh1.vertices.length mesh1.vertices basis.data
          (mesh1.shape_keys.getD []) (BLENDSHAPE_NAMES ++ EXTRA_BLENDSHAPE_NAMES)
        some (setObj s1 i fun o => { o with data := .mesh { mesh1 with shape_keys := some blocks } })
    | _ => some s

/-- The first line printed by `main()` (line 124). -/
def MSG1 : String :=
  "Watchdog model created: WatchdogHead mesh + root bone + 51 MediaPipe + tongueOut shape keys."

/-- The second line printed by `main()` (line 125). -/
def MSG2 : String :=
  "Next: Add teeth + tongue geometry so mouth open shows 3D interior (see ART_GUIDE.md)."

/-- The third line printed by `main()` (line 126). -/
def MSG3 : String :=
  "      Optionally assign \x27Watchdog Image.png\x27 as texture, then File -> Export -> glTF 2.0 (.glb)"

/-- Model of `main()` (lines 114-126): clear the scene, create the head, add the
blendshape keys, add the root bone, reselect the head and recenter its origin
to its bounds, then print three diagnostic lines. The result pairs the final
scene with the printed lines; `none` is a propagated host exception. -/
def main (h : Host) (s : Scene) : Option (Scene × List String) :=
  let s0 := clear_scene s
  let cr := create_watchdog_head_mesh h s0
  match add_blendshape_keys cr.1 cr.2 with
  | none => none
  | some s2 =>
    match add_root_bone s2 cr.2 with
    | none => none
    | some sr =>
      let s4 := select_all_deselect sr.1
      let s5 := set_active (select_set s4 cr.2 true) cr.2
      let s6 := origin_set_bounds s5
      some (s6, [MSG1, MSG2, MSG3])

/-- The scene right after `clear_scene`: no objects, no active object. -/
def emptyScene : Scene := { objects := [], active := none }

/-- The mesh objects of a scene. -/
def Scene.meshObjects (s : Scene) : List BObject :=
  s.objects.filter fun o => o.type == "MESH"

/-- The armature objects of a scene. -/
def Scene.armatureObjects (s : Scene) : List BObject :=
  s.objects.filter fun o => o.type == "ARMATURE"

/-- An object's shape-key blocks ([] for a non-mesh or a mesh without keys). -/
def keyBlocks (o : BObject) : List ShapeKey :=
  match o.data with
  | .mesh m => m.shape_keys.getD []
  | _ => []

/-- The shape-key names of an object, in block order. -/
def keyNames (o : BObject) : List String :=
  (keyBlocks o).map fun k => k.name

/-- The shape-key names of an object other than the Basis key. -/
def nonBasisKeyNames (o : BObject) : List String :=
  (keyNames o).filter fun nm => nm != "Basis"

/-- An object's bones ([] for a non-armature). -/
def bonesOf (o : BObject) : List Bone :=
  match o.data with
  | .armature a => a.bones
  | _ => []

/-- `o` is parented to some armature object of `s`. -/
def childOfArmature (s : Scene) (o : BObject) : Prop :=
  ∃ j a, o.parent = some j ∧ s.objects[j]? = some a ∧ a.type = "ARMATURE"

/-- The full list of shape-key names the script adds (line 105):
`BLENDSHAPE_NAMES + EXTRA_BLENDSHAPE_NAMES`. -/
def allKeyNames : List String := BLENDSHAPE_NAMES ++ EXTRA_BLENDSHAPE_NAMES

/-- The part of an object a downstream exporter observes: everything except
the editor's selection state. -/
structure ObjGeom where
  name : String
  data : ObjectData
  location : Vec3
  scale : Vec3
  parent : Option Nat
deriving DecidableEq, Repr

/-- Forget an object's selection flag. -/
def BObject.geom (o : BObject) : ObjGeom :=
  { name := o.name, data := o.data, location := o.location, scale := o.scale, parent := o.parent }

/-- The exportable view of a scene: its objects minus selection and
active-object state. -/
def Scene.geometry (s : Scene) : List ObjGeom := s.objects.map BObject.geom

/-- Step 5 of the spec's step list, as the spec words it: recenter the mesh
origin of object `i` to its geometric bounds. -/
def recenter_origin (s : Scene) (i : Nat) : Scene := setObj s i recenterObj

/-- Step 3 of the spec's step list, as §2 and §3 of the spec word it: the mesh
gains a neutral base pose (Basis) plus one morph target per name in the
blendshape list, every one of them with vertex data equal to the neutral
pose. -/
def spec_add_morph_targets (s : Scene) (i : Nat) : Option Scene :=
  match s.objects[i]? with
  | none => none
  | some o =>
    match o.data with
    | .mesh m =>
      let neutral := m.vertices
      let blocks : List ShapeKey :=
        { name := "Basis", data := neutral } ::
          (allKeyNames.map fun nm => { name := nm, data := neutral })
      some (setObj s i fun o' => { o' with data := .mesh { m with shape_keys := some blocks } })
    | _ => none

/-- The five-step sequence exactly as §2 of the spec lists it: (1) clear the
scene, (2) build the sphere-derived head (scaled, subdivided once), (3) add the
named shape keys initialized to the neutral pose, (4) add the one-bone skeleton
and parent the mesh to it, (5) recenter the mesh origin to its bounds. -/
def spec_step_sequence (h : Host) (s : Scene) : Option Scene :=
  let s1 := clear_scene s
  let cr := create_watchdog_head_mesh h s1
  match spec_add_morph_targets cr.1 cr.2 with
  | none => none
  | some s3 =>
    match add_root_bone s3 cr.2 with
    | none => none
    | some sr => some (recenter_origin sr.1 cr.2)

/-- The head's vertex list as built by `create_watchdog_head_mesh`: the host's
sphere vertices, scaled componentwise by (1.05, 1.2, 0.95) when the object
scale is baked, then subdivided once by the host. -/
def headVerts (h : Host) : List Vec3 :=
  h.subdivideOnce (h.sphereVerts.map fun v => Vec3.mul v ⟨1.05, 1.2, 0.95⟩)

/-- The head object as `create_watchdog_head_mesh` leaves it when run on the
cleared scene. -/
def createdHead (h : Host) : BObject :=
  { name := "WatchdogHead"
    data := .mesh { vertices := headVerts h, shape_keys := none }
    location := Vec3.zero
    scale := ⟨1, 1, 1⟩
    parent := none
    selected := true }

/-- The scene after step 2 of `main`: just the freshly created head. -/
def createdScene (h : Host) : Scene := { objects := [createdHead h], active := some 0 }

/-- The vertex data the adding loop stores into each new shape key. -/
def keyData (h : Host) : List Vec3 :=
  copy_basis_loop (headVerts h).length (headVerts h) (headVerts h)

/-- The shape-key blocks after `add_blendshape_keys` runs on the fresh head. -/
def afterKeysBlocks (h : Host) : List ShapeKey :=
  { name := "Basis", data := headVerts h } ::
    (allKeyNames.map fun nm => { name := nm, data := keyData h })

/-- The head after `add_blendshape_keys`. -/
def afterKeysHead (h : Host) : BObject :=
  { name := "WatchdogHead"
    data := .mesh { vertices := headVerts h, shape_keys := some (afterKeysBlocks h) }
    location := Vec3.zero
    scale := ⟨1, 1, 1⟩
    parent := none
    selected := true }

/-- The scene after step 3 of `main`. -/
def afterKeysScene (h : Host) : Scene := { objects := [afterKeysHead h], active := some 0 }

/-- The armature object as `add_root_bone` leaves it. -/
def armatureObj : BObject :=
  { name := "Armature"
    data := .armature { bones := [{ name := "root", head := Vec3.zero, tail := ⟨0, 0, 0.2⟩ }] }
    location := Vec3.zero
    scale := ⟨1, 1, 1⟩
    parent := none
    selected := false }

/-- The head after `add_root_bone`: parented to the armature (index 1) and
deselected by the closing `select_all(action="DESELECT")`. -/
def afterBoneHead (h : Host) : BObject :=
  { name := "WatchdogHead"
    data := .mesh { vertices := headVerts h, shape_keys := some (afterKeysBlocks h) }
    location := Vec3.zero
    scale := ⟨1, 1, 1⟩
    parent := some 1
    selected := false }

/-- The scene after step 4 of `main`. -/
def afterBoneScene (h : Host) : Scene :=
  { objects := [afterBoneHead h, armatureObj], active := some 1 }

/-- The bounding-box center `origin_set` recenters the head to. -/
def headCenter (h : Host) : Vec3 := boundsCenter (headVerts h)

/-- The head at the end of `main`: reselected, origin moved to the bounds
center, all vertex and shape-key coordinates shifted accordingly. -/
def finalHead (h : Host) : BObject :=
  { name := "WatchdogHead"
    data := .mesh
      { vertices := (headVerts h).map fun v => v.sub (headCenter h)
        shape_keys := some ((afterKeysBlocks h).map fun k =>
          { k with data := k.data.map fun v => v.sub (headCenter h) }) }
    location := Vec3.zero.add (headCenter h)
    scale := ⟨1, 1, 1⟩
    parent := some 1
    selected := true }

/-- The scene `main` ends with. -/
def finalScene (h : Host) : Scene := { objects := [finalHead h, armatureObj], active := some 0 }

/-- A degenerate host for concrete evaluation: an empty sphere and an identity
subdivision. The script's control flow never inspects the geometry, so every
name-level fact it produces is the same as for the real host. -/
def testHost : Host := { sphereVerts := [], subdivideOnce := fun vs => vs }

/-- A one-vertex host for concrete evaluation of vertex-data facts. -/
def oneVertexHost : Host := { sphereVerts := [⟨1, 2, 3⟩], subdivideOnce := fun vs => vs }

/-- A camera object: an object whose type is not "MESH". -/
def camObj : BObject :=
  { name := "Camera"
    data := .other "CAMERA"
    location := Vec3.zero
    scale := ⟨1, 1, 1⟩
    parent := none
    selected := false }

/-- A scene holding only a camera, used to evaluate the non-mesh early
return of `add_blendshape_keys`. -/
def camScene : Scene := { objects := [camObj], active := none }

/-- The morph-target blocks step 3 of the spec describes: a Basis (neutral)
key plus one key per blendshape name, every one equal to the neutral pose. -/
def specBlocks (h : Host) : List ShapeKey :=
  { name := "Basis", data := headVerts h } ::
    (allKeyNames.map fun nm => { name := nm, data := headVerts h })

/-- The scene after step 3 of the spec's sequence. -/
def specKeysScene (h : Host) : Scene :=
  { objects := [BObject.mk "WatchdogHead"
      (.mesh { vertices := headVerts h, shape_keys := some (specBlocks h) })
      Vec3.zero ⟨1, 1, 1⟩ none true]
    active := some 0 }

/-- The scene after step 4 of the spec's sequence. -/
def specBonedScene (h : Host) : Scene :=
  { objects := [BObject.mk "WatchdogHead"
      (.mesh { vertices := headVerts h, shape_keys := some (specBlocks h) })
      Vec3.zero ⟨1, 1, 1⟩ (some 1) false, armatureObj]
    active := some 1 }

/-- The head at the end of the spec's five-step sequence. -/
def specFinalHead (h : Host) : BObject :=
  { name := "WatchdogHead"
    data := .mesh
      { vertices := (headVerts h).map fun v => v.sub (headCenter h)
        shape_keys := some ((specBlocks h).map fun k =>
          { k with data := k.data.map fun v => v.sub (headCenter h) }) }
    location := Vec3.zero.add (headCenter h)
    scale := ⟨1, 1, 1⟩
    parent := some 1
    selected := false }

/-- The scene at the end of the spec's five-step sequence. -/
def specFinalScene (h : Host) : Scene :=
  { objects := [specFinalHead h, armatureObj], active := some 1 }

/-!  Helper lemmas: stagewise normalization of the script's pipeline.  -/

theorem clear_scene_eq (s : Scene) : clear_scene s = emptyScene := by
  have hobj : ∀ l : List BObject,
      (l.map fun o => { o with selected := true }).filter (fun o => !o.selected) = [] := by
    intro l
    induction l with
    | nil => rfl
    | cons a t ih => simp [List.filter, ih]
  simp [clear_scene, delete_selected, select_all_select, emptyScene, hobj]

theorem create_stage (h : Host) :
    create_watchdog_head_mesh h emptyScene = (createdScene h, 0) := rfl

theorem add_keys_fold_disjoint (n : Nat) (verts basisData : List Vec3)
    (names : List String) :
    ∀ blocks : List ShapeKey,
      (∀ nm ∈ names, ∀ k ∈ blocks, k.name ≠ nm) → names.Nodup →
      add_keys_fold n verts basisData blocks names =
        blocks ++ names.map fun nm => { name := nm, data := copy_basis_loop n basisData verts } := by
  induction names with
  | nil =>
    intro blocks _ _
    simp [add_keys_fold]
  | cons nm rest ih =>
    intro blocks hdisj hnodup
    have hany : (blocks.any fun k => decide (k.name = nm)) = false := by
      rw [List.any_eq_false]
      intro k hk
      simp only [decide_eq_true_eq]
      exact hdisj nm (List.mem_cons_self nm rest) k hk
    have step : add_keys_fold n verts basisData blocks (nm :: rest) =
        add_keys_fold n verts basisData
          (blocks ++ [{ name := nm, data := copy_basis_loop n basisData verts }]) rest := by
      simp only [add_keys_fold, List.foldl_cons, hany]
      rfl
    rw [step, ih]
    · simp
    · intro nm' hnm' k hk
      rcases List.mem_append.mp hk with hk | hk
      · exact hdisj nm' (List.mem_cons_of_mem nm hnm') k hk
      · rw [List.mem_singleton] at hk
        subst hk
        intro hcontra
        change nm = nm' at hcontra
        subst hcontra
        exact (List.nodup_cons.mp hnodup).1 hnm'
    · exact (List.nodup_cons.mp hnodup).2

theorem allKeyNames_nodup : allKeyNames.Nodup := by decide

theorem basis_not_in_allKeyNames : ∀ nm ∈ allKeyNames, "Basis" ≠ nm := by decide

set_option maxRecDepth 4000 in
theorem keys_stage (h : Host) :
    add_blendshape_keys (createdScene h) 0 = some (afterKeysScene h) := by
  have h1 : add_blendshape_keys (createdScene h) 0 = some (Scene.mk
      [BObject.mk "WatchdogHead" (ObjectData.mesh (MeshData.mk (headVerts h)
        (some (add_keys_fold (headVerts h).length (headVerts h) (headVerts h)
          [ShapeKey.mk "Basis" (headVerts h)] allKeyNames))))
        Vec3.zero ⟨1, 1, 1⟩ none true] (some 0)) := rfl
  have hdisj : ∀ nm ∈ allKeyNames, ∀ k ∈ [ShapeKey.mk "Basis" (headVerts h)], k.name ≠ nm := by
    intro nm hnm k hk
    rw [List.mem_singleton] at hk
    subst hk
    exact basis_not_in_allKeyNames nm hnm
  rw [h1, add_keys_fold_disjoint _ _ _ _ _ hdisj allKeyNames_nodup]
  simp [afterKeysScene, afterKeysHead, afterKeysBlocks, keyData]

set_option maxRecDepth 4000 in
theorem bone_stage_data (d : ObjectData) :
    add_root_bone
        { objects := [BObject.mk "WatchdogHead" d Vec3.zero ⟨1, 1, 1⟩ none true]
          active := some 0 } 0 =
      some ({ objects := [BObject.mk "WatchdogHead" d Vec3.zero ⟨1, 1, 1⟩ (some 1) false,
        armatureObj], active := some 1 }, 1) := rfl

theorem bone_stage (h : Host) :
    add_root_bone (afterKeysScene h) 0 = some (afterBoneScene h, 1) :=
  bone_stage_data (ObjectData.mesh { vertices := headVerts h, shape_keys := some (afterKeysBlocks h) })

set_option maxRecDepth 4000 in
theorem tail_stage (h : Host) :
    origin_set_bounds (set_active (select_set (select_all_deselect (afterBoneScene h)) 0 true) 0) =
      finalScene h := rfl

theorem main_norm (h : Host) (s : Scene) :
    main h s = some (finalScene h, [MSG1, MSG2, MSG3]) := by
  simp only [main, clear_scene_eq, create_stage, keys_stage, bone_stage, tail_stage]

theorem setObj_append (l : List BObject) (x : BObject) (act : Option Nat)
    (f : BObject → BObject) (i : Nat) (hi : i = l.length) :
    setObj { objects := l ++ [x], active := act } i f =
      { objects := l ++ [f x], active := act } := by
  subst hi
  have hx : (l ++ [x])[l.length]? = some x := by
    rw [List.getElem?_append_right (Nat.le_refl _)]
    simp
  simp only [setObj, hx]
  rw [List.set_append_right _ _ (Nat.le_refl _)]
  simp

theorem deselected_map_invariant (l : List BObject) :
    ((l.map fun o => { o with selected := false }).map
      fun o => if o.selected then bakeScale o else o) =
      l.map fun o => { o with selected := false } := by
  rw [List.map_map]
  exact List.map_congr_left fun a _ => rfl

theorem transform_apply_scale_append (l : List BObject) (x : BObject) (act : Option Nat) :
    transform_apply_scale
        { objects := (l.map fun o => { o with selected := false }) ++ [x], active := act } =
      { objects := (l.map fun o => { o with selected := false }) ++
          [if x.selected then bakeScale x else x], active := act } := by
  simp only [transform_apply_scale, List.map_append, deselected_map_invariant]
  rfl

theorem create_full (h : Host) (s : Scene) :
    create_watchdog_head_mesh h s =
      ({ objects := (s.objects.map fun o => { o with selected := false }) ++ [createdHead h]
         active := some s.objects.length }, s.objects.length) := by
  have hlen : (s.objects.map fun o => { o with selected := false }).length = s.objects.length :=
    List.length_map ..
  simp only [create_watchdog_head_mesh, primitive_uv_sphere_add]
  rw [setObj_append _ _ _ _ _ hlen.symm, setObj_append _ _ _ _ _ hlen.symm,
    transform_apply_scale_append]
  simp only [subdivide_active]
  rw [setObj_append _ _ _ _ _ hlen.symm]
  rfl

theorem set_getD_self (l : List Vec3) : ∀ i : Nat, l.set i (l.getD i Vec3.zero) = l := by
  induction l with
  | nil => intro i; rfl
  | cons a t ih =>
    intro i
    cases i with
    | zero => rfl
    | succ n =>
      show a :: t.set n ((a :: t).getD (n + 1) Vec3.zero) = a :: t
      rw [List.getD_cons_succ, ih n]

theorem copy_basis_loop_self (l : List Vec3) : ∀ n : Nat, copy_basis_loop n l l = l := by
  intro n
  induction n with
  | zero => rfl
  | succ m ih =>
    unfold copy_basis_loop at ih ⊢
    rw [List.range_succ, List.foldl_append, ih]
    exact set_getD_self l m

theorem spec_keys_stage (h : Host) :
    spec_add_morph_targets (createdScene h) 0 = some (specKeysScene h) := rfl

set_option maxRecDepth 4000 in
theorem spec_tail_stage (h : Host) :
    recenter_origin (specBonedScene h) 0 = specFinalScene h := rfl

theorem spec_bone_stage (h : Host) :
    add_root_bone (specKeysScene h) 0 = some (specBonedScene h, 1) :=
  bone_stage_data (ObjectData.mesh { vertices := headVerts h, shape_keys := some (specBlocks h) })

theorem spec_norm (h : Host) (s : Scene) :
    spec_step_sequence h s = some (specFinalScene h) := by
  simp only [spec_step_sequence, clear_scene_eq, create_stage, spec_keys_stage, spec_bone_stage,
    spec_tail_stage]

theorem geometry_match (h : Host) :
    (finalScene h).geometry = (specFinalScene h).geometry := by
  simp only [Scene.geometry, finalScene, specFinalScene, finalHead, specFinalHead,
    afterKeysBlocks, specBlocks, keyData, copy_basis_loop_self, List.map_cons, List.map_nil,
    BObject.geom]

/-!  Claim theorems.  -/

/-- C1, amended: after `main` runs, the scene has exactly one mesh, and its
morph-target names excluding the Basis key are exactly the script's fixed
name list — the 51 standard MediaPipe names of `BLENDSHAPE_NAMES` (the
52-name MediaPipe convention minus `_neutral`, whose role the Basis key
plays) plus the one custom name "tongueOut" — each appearing exactly once,
52 names in total. -/
theorem C1_theorem (h : Host) (s : Scene) :
    ∃ out hd, main h s = some out ∧ out.1.meshObjects = [hd] ∧
      nonBasisKeyNames hd = BLENDSHAPE_NAMES ++ EXTRA_BLENDSHAPE_NAMES ∧
      (BLENDSHAPE_NAMES ++ EXTRA_BLENDSHAPE_NAMES).Nodup ∧
      (BLENDSHAPE_NAMES ++ EXTRA_BLENDSHAPE_NAMES).length = 51 + 1 := by
  refine ⟨(finalScene h, [MSG1, MSG2, MSG3]), finalHead h, main_norm h s, rfl, rfl,
    allKeyNames_nodup, rfl⟩

/-- C1 counterexample: the claim as stated says the non-Basis morph-target
names are 52 standard names plus the distinct custom name "tongueOut", i.e.
53 names each appearing exactly once. At a concrete run of `main` the unique
mesh has only 52 non-Basis names, so the test "count = 52 + 1" evaluates to
false: the script's list holds 51 standard names, not 52. -/
theorem C1_counterexample :
    ((main testHost emptyScene).map fun out =>
      out.1.meshObjects.map fun o =>
        ((nonBasisKeyNames o).length, decide ((nonBasisKeyNames o).length = 52 + 1))) =
      some [(52, false)] := by
  rw [main_norm]
  rfl

/-- C2: when `add_blendshape_keys` runs on the freshly created mesh (the
script's call site), every shape-key block of the resulting unique mesh has
vertex data equal to the Basis block's data — as whole lists and pointwise at
every vertex index. -/
theorem C2_theorem (h : Host) (s : Scene) :
    ∃ s' hd basis,
      add_blendshape_keys (create_watchdog_head_mesh h (clear_scene s)).1
          (create_watchdog_head_mesh h (clear_scene s)).2 = some s' ∧
      s'.meshObjects = [hd] ∧
      (keyBlocks hd).find? (fun k => k.name = "Basis") = some basis ∧
      ((keyBlocks hd).all fun k => k.data = basis.data) = true ∧
      ((keyBlocks hd).all fun k =>
        (List.range k.data.length).all fun i =>
          k.data.getD i Vec3.zero = basis.data.getD i Vec3.zero) = true := by
  simp only [clear_scene_eq, create_stage]
  refine ⟨afterKeysScene h, afterKeysHead h, ⟨"Basis", headVerts h⟩, keys_stage h, rfl, rfl, ?_, ?_⟩
  · simp [keyBlocks, afterKeysHead, afterKeysBlocks, keyData, copy_basis_loop_self,
      List.all_eq_true, List.forall_mem_cons, List.forall_mem_map]
  · simp [keyBlocks, afterKeysHead, afterKeysBlocks, keyData, copy_basis_loop_self,
      List.all_eq_true, List.forall_mem_cons, List.forall_mem_map]

/-- C3: running `main` twice in the same session leaves a scene whose unique
mesh has no duplicate morph-target names: the name list is duplicate-free, so
every name occurs at most once. -/
theorem C3_theorem (h : Host) (s : Scene) :
    ∃ out1 out2 hd,
      main h s = some out1 ∧ main h out1.1 = some out2 ∧
      out2.1.meshObjects = [hd] ∧ (keyNames hd).Nodup ∧
      ∀ name : String, (keyNames hd).count name ≤ 1 := by
  have hnames : keyNames (finalHead h) = "Basis" :: allKeyNames := rfl
  have hnodup : (keyNames (finalHead h)).Nodup := by
    rw [hnames]
    decide
  exact ⟨(finalScene h, [MSG1, MSG2, MSG3]), (finalScene h, [MSG1, MSG2, MSG3]), finalHead h,
    main_norm h s, main_norm h _, rfl, hnodup, fun name => List.nodup_iff_count_le_one.mp hnodup name⟩

/-- C4: after `main` runs on an arbitrary starting scene, the scene contains
exactly one mesh object and exactly one armature object, and the mesh is
parented to that armature. -/
theorem C4_theorem (h : Host) (s : Scene) :
    ∃ out hd, main h s = some out ∧
      out.1.meshObjects = [hd] ∧ out.1.armatureObjects.length = 1 ∧
      childOfArmature out.1 hd :=
  ⟨(finalScene h, [MSG1, MSG2, MSG3]), finalHead h, main_norm h s, rfl, rfl,
    1, armatureObj, rfl, rfl, rfl⟩

/-- C5: after `main` runs, the unique armature holds exactly one bone, named
"root", whose head sits at the world origin (the armature's location plus the
bone's head is (0, 0, 0)). -/
theorem C5_theorem (h : Host) (s : Scene) :
    ∃ out a b, main h s = some out ∧
      out.1.armatureObjects = [a] ∧ bonesOf a = [b] ∧
      b.name = "root" ∧ b.head = Vec3.zero ∧ Vec3.add a.location b.head = Vec3.zero :=
  ⟨(finalScene h, [MSG1, MSG2, MSG3]), armatureObj,
    { name := "root", head := Vec3.zero, tail := ⟨0, 0, 0.2⟩ },
    main_norm h s, rfl, rfl, rfl, rfl, by simp [Vec3.add, Vec3.zero, armatureObj]⟩

/-- C6: `main` performs exactly the spec's five steps in the spec's order —
clear, build the scaled and once-subdivided sphere mesh, add the named shape
keys initialized to the neutral pose, add the one-bone skeleton and parent the
mesh to it, recenter the mesh origin — in the sense that the scene `main`
produces agrees, object for object, with the five-step reference sequence on
everything an exporter observes (names, data, transforms, parenting). -/
theorem C6_theorem (h : Host) (s : Scene) :
    ∃ out s2, main h s = some out ∧ spec_step_sequence h s = some s2 ∧
      out.1.geometry = s2.geometry :=
  ⟨(finalScene h, [MSG1, MSG2, MSG3]), specFinalScene h, main_norm h s, spec_norm h s,
    geometry_match h⟩

/-- C7: calling `add_blendshape_keys` on any object whose type is not "MESH"
returns silently with the scene — and hence the object's data — completely
unchanged. -/
theorem C7_theorem (s : Scene) (i : Nat) (obj : BObject)
    (hobj : s.objects[i]? = some obj) (htype : obj.type ≠ "MESH") :
    add_blendshape_keys s i = some s := by
  unfold add_blendshape_keys
  rw [hobj]
  rcases obj with ⟨nm, d, loc, sc, par, sel⟩
  cases d with
  | mesh m => exact absurd rfl htype
  | armature a => rfl
  | other k => rfl

/-- C7 witness: the theorem applied to a concrete one-camera scene. -/
theorem C7_witness : add_blendshape_keys camScene 0 = some camScene :=
  C7_theorem camScene 0 camObj rfl (by decide)

/-- C8, amended: besides the scene mutation, `main`'s only observable output
is exactly three diagnostic print statements (the spec's count of two is off
by one). -/
theorem C8_theorem (h : Host) (s : Scene) :
    ∃ out, main h s = some out ∧ out.2 = [MSG1, MSG2, MSG3] ∧ out.2.length = 3 :=
  ⟨(finalScene h, [MSG1, MSG2, MSG3]), main_norm h s, rfl, rfl⟩

/-- C8 counterexample: at a concrete run of `main` the list of printed
diagnostic lines has length 3, so the claim's "exactly two diagnostic print
statements" evaluates to false. -/
theorem C8_counterexample :
    ((main testHost emptyScene).map fun out => (out.2.length, decide (out.2.length = 2))) =
      some (3, false) := by
  rw [main_norm]
  rfl

/-- C9: after `add_blendshape_keys` runs on the freshly created mesh, the
unique mesh has exactly 53 shape-key blocks — Basis first, then the 51
entries of `BLENDSHAPE_NAMES` in list order, then "tongueOut" — and the name
"_neutral" never appears. -/
theorem C9_theorem (h : Host) (s : Scene) :
    ∃ s' hd,
      add_blendshape_keys (create_watchdog_head_mesh h (clear_scene s)).1
          (create_watchdog_head_mesh h (clear_scene s)).2 = some s' ∧
      s'.meshObjects = [hd] ∧
      keyNames hd = "Basis" :: (BLENDSHAPE_NAMES ++ EXTRA_BLENDSHAPE_NAMES) ∧
      (keyNames hd).length = 53 ∧ BLENDSHAPE_NAMES.length = 51 ∧
      (keyNames hd).count "_neutral" = 0 := by
  simp only [clear_scene_eq, create_stage]
  have hnames : keyNames (afterKeysHead h) = "Basis" :: allKeyNames := rfl
  exact ⟨afterKeysScene h, afterKeysHead h, keys_stage h, rfl, rfl, rfl, rfl,
    by rw [hnames]; decide⟩

/-- C10: when `create_watchdog_head_mesh` returns, the head object's scale is
the identity (1, 1, 1) and its vertices are the host's sphere vertices with
the (1.05, 1.2, 0.95) head proportions already multiplied in (then subdivided
once): the scaling is baked into vertex positions by `transform_apply`, not
left as an object-level transform. -/
theorem C10_theorem (h : Host) (s : Scene) :
    ∃ o, (create_watchdog_head_mesh h s).1.objects[(create_watchdog_head_mesh h s).2]? = some o ∧
      o.scale = ⟨1, 1, 1⟩ ∧
      o.data = .mesh { vertices := h.subdivideOnce (h.sphereVerts.map fun v =>
        Vec3.mul v ⟨1.05, 1.2, 0.95⟩), shape_keys := none } := by
  refine ⟨createdHead h, ?_, rfl, rfl⟩
  simp only [create_full]
  rw [List.getElem?_append_right (by simp)]
  simp

end Watchdog
